import Mathlib

/-!
Shallow embedding of the scribble backend (models/Room.js, models/Game.js,
controllers/socketController.js) in Lean 4, together with theorems settling
the claims about it.

Modelling conventions:
* JS `Map` objects (`Room.rooms`, `Game.games`) are association lists
  `List (String × α)`; `Map` keys are unique, so updating every matching
  entry coincides with mutating the object returned by `get`.
* JS numbers are `Rat` where fractional values occur (times, drawTime) and
  `Int` for counters and scores.
* Falsy-checked string arguments (`if (!roomId) return`) are modelled by
  comparison with the empty string; absent-or-falsy numeric settings
  (`settings.rounds || 3`) by `Option` with `0` also mapping to the default.
* Sources of nondeterminism (Date.now(), Math.random shuffles, the hint's
  random index, the random palette color) are passed as explicit parameters.
* `socket.emit` / `socket.to(roomId).emit` become `Emission` values with a
  `Target`; `setTimeout` becomes a `Sched` value describing what was
  scheduled (the source never cancels any timer).
-/

namespace Scribble

/-- A user record as built by the socket controller:
`{ id: socket.id, username, color }`. -/
structure User where
  id : String
  username : String
  color : String
deriving DecidableEq, Repr

/-- A drawing-log entry as appended by `handleDrawing`:
`{ type, data, userId, timestamp }`.  The inner `data` payload is carried
opaquely as the stroke fields are never inspected by the server. -/
structure DrawingEvent where
  type : String
  userId : String
  timestamp : Rat
deriving DecidableEq, Repr

/-- A room record from models/Room.js `createRoom`:
`{ id, name, users: [], drawingData: [], createdAt }`.
`createdAt` is carried as an opaque timestamp. -/
structure RoomState where
  id : String
  name : String
  users : List User
  drawingData : List DrawingEvent
  createdAt : Rat
deriving DecidableEq, Repr

/-- A player entry from models/Game.js `addPlayer`:
`{ id, username, score: 0, hasGuessed: false }`. -/
structure Player where
  id : String
  username : String
  score : Int
  hasGuessed : Bool
deriving DecidableEq, Repr

/-- The `settings` argument of `createGame`; `none` models an absent field
(JS `undefined`), and `0` is falsy so it also selects the default. -/
structure Settings where
  rounds : Option Int
  drawTime : Option Rat
deriving DecidableEq, Repr

/-- The per-room game state from models/Game.js `createGame`.  The source
object also holds `timer: null`, which is never read or written again
anywhere in the source, so it is not carried here. -/
structure GameState where
  roomId : String
  rounds : Int
  currentRound : Int
  drawTime : Rat
  isActive : Bool
  isRoundActive : Bool
  currentDrawer : Option String
  currentWord : Option String
  wordOptions : List String
  players : List Player
  guessedPlayers : List String
  roundStartTime : Option Rat
  usedWords : List String
  settings : Settings
deriving DecidableEq, Repr

/-! ### JS `Map` as an association list -/

/-- Source `map.get(k)` (`|| null` folded into the `Option`). -/
def mapGet (m : List (String × α)) (k : String) : Option α :=
  (m.find? (fun e => e.1 = k)).map (fun e => e.2)

/-- Source `map.set(k, v)` for a key not already present (the source only ever
inserts fresh keys). -/
def mapSet (m : List (String × α)) (k : String) (v : α) : List (String × α) :=
  m ++ [(k, v)]

/-- Source `map.delete(k)`. -/
def mapDelete (m : List (String × α)) (k : String) : List (String × α) :=
  m.filter (fun e => ¬ e.1 = k)

/-- Mutation of the object returned by `map.get(k)`: since `Map` keys are
unique, updating every entry with key `k` is the same operation. -/
def mapUpdate (m : List (String × α)) (k : String) (f : α → α) : List (String × α) :=
  m.map (fun e => if e.1 = k then (e.1, f e.2) else e)

/-- In-place mutation of the single object returned by `Array.prototype.find`:
update the first list element satisfying `p`. -/
def updateFirst (p : α → Bool) (f : α → α) : List α → List α
  | [] => []
  | a :: as => if p a then f a :: as else a :: updateFirst p f as

/-! ### models/Room.js -/

namespace Room

/-- Source `createRoom(roomName)`; the uuid and `new Date()` are parameters. -/
def createRoom (roomId roomName : String) (createdAt : Rat) : RoomState :=
  { id := roomId, name := roomName, users := [], drawingData := [], createdAt := createdAt }

/-- Source `getRoom(roomId)`. -/
def getRoom (rooms : List (String × RoomState)) (roomId : String) : Option RoomState :=
  mapGet rooms roomId

/-- Source `addUser(roomId, user)`: pushes the user unconditionally. -/
def addUser (rooms : List (String × RoomState)) (roomId : String) (user : User) :
    List (String × RoomState) × Bool :=
  match mapGet rooms roomId with
  | none => (rooms, false)
  | some _ =>
    (mapUpdate rooms roomId (fun room => { room with users := room.users ++ [user] }), true)

/-- Source `removeUser(roomId, userId)`: splice out the first user with this id;
delete the room from the registry if no users remain. -/
def removeUser (rooms : List (String × RoomState)) (roomId userId : String) :
    List (String × RoomState) × Option User :=
  match mapGet rooms roomId with
  | none => (rooms, none)
  | some room =>
    match room.users.find? (fun u => u.id = userId) with
    | none => (rooms, none)
    | some u =>
      let users' := room.users.eraseP (fun v => v.id = userId)
      if users'.isEmpty then
        (mapDelete rooms roomId, some u)
      else
        (mapUpdate rooms roomId (fun rm => { rm with users := users' }), some u)

/-- Source `getDrawingData(roomId)`. -/
def getDrawingData (rooms : List (String × RoomState)) (roomId : String) : List DrawingEvent :=
  match mapGet rooms roomId with
  | none => []
  | some room => room.drawingData

/-- Source `clearDrawingData(roomId)`. -/
def clearDrawingData (rooms : List (String × RoomState)) (roomId : String) :
    List (String × RoomState) × Bool :=
  match mapGet rooms roomId with
  | none => (rooms, false)
  | some _ => (mapUpdate rooms roomId (fun room => { room with drawingData := [] }), true)

/-- Source `getAllRooms()`: `Array.from(this.rooms.values())`. -/
def getAllRooms (rooms : List (String × RoomState)) : List RoomState :=
  rooms.map (fun e => e.2)

/-- Source `getUser(roomId, userId)`. -/
def getUser (rooms : List (String × RoomState)) (roomId userId : String) : Option User :=
  match mapGet rooms roomId with
  | none => none
  | some room => room.users.find? (fun u => u.id = userId)

end Room

/-! ### models/Game.js -/

/-- The word list of `generateWordOptions`. -/
def allWords : List String :=
  [ "apple", "banana", "cat", "dog", "house", "tree", "car", "sun",
    "moon", "star", "flower", "book", "phone", "chair", "table", "cup",
    "elephant", "guitar", "mountain", "rainbow", "butterfly", "umbrella",
    "camera", "bicycle", "pizza", "rocket", "castle", "diamond",
    "telescope", "helicopter", "saxophone", "lighthouse", "penguin",
    "kangaroo", "watermelon", "pineapple", "dinosaur", "computer",
    "football", "basketball", "baseball", "tennis", "swimming",
    "dragon", "unicorn", "mermaid", "wizard", "pirate",
    "crown", "sword", "shield", "treasure", "bridge" ]

/-- Source `allWords.filter(w => !usedWords.includes(w))`. -/
def availableWords (usedWords : List String) : List String :=
  allWords.filter (fun w => !(usedWords.contains w))

/-- JS `String.prototype.toLowerCase()`: lower-case every character.
(Defined characterwise so that it evaluates by kernel reduction; Lean's
built-in `String.toLower` is extensionally the same but is defined through
well-founded recursion, which `decide` cannot unfold.) -/
def jsToLowerCase (s : String) : String :=
  String.mk (s.toList.map Char.toLower)

/-- JS `String.prototype.trim()`: strip leading and trailing whitespace. -/
def jsTrim (s : String) : String :=
  String.mk (((s.toList.dropWhile Char.isWhitespace).reverse.dropWhile
    Char.isWhitespace).reverse)

namespace Game

/-- Source `generateWordOptions(usedWords)`: the source shuffles the available
words with a `Math.random` comparator and takes the first 3.  The shuffle
outcome is the parameter `shuffled`; theorems about offerings assume it is
a permutation of `availableWords usedWords`. -/
def generateWordOptions (shuffled : List String) : List String :=
  shuffled.take 3

/-- Source `createGame(roomId, settings = {})`: `settings.rounds || 3` and
`settings.drawTime || 60` (`0` is falsy, hence also defaults). -/
def createGame (roomId : String) (settings : Settings) : GameState :=
  { roomId := roomId
    rounds := match settings.rounds with | none => 3 | some n => if n = 0 then 3 else n
    currentRound := 0
    drawTime := match settings.drawTime with | none => 60 | some q => if q = 0 then 60 else q
    isActive := false
    isRoundActive := false
    currentDrawer := none
    currentWord := none
    wordOptions := []
    players := []
    guessedPlayers := []
    roundStartTime := none
    usedWords := []
    settings := settings }

/-- Source `getGame(roomId)`. -/
def getGame (games : List (String × GameState)) (roomId : String) : Option GameState :=
  mapGet games roomId

/-- Source `addPlayer` on the game object: no-op if a player with this id exists,
otherwise push `{ id, username, score: 0, hasGuessed: false }`. -/
def addPlayerState (g : GameState) (player : User) : GameState :=
  match g.players.find? (fun p => p.id = player.id) with
  | some _ => g
  | none =>
    { g with players := g.players ++
        [{ id := player.id, username := player.username, score := 0, hasGuessed := false }] }

/-- Source `addPlayer(roomId, player)`. -/
def addPlayer (games : List (String × GameState)) (roomId : String) (player : User) :
    List (String × GameState) × Bool :=
  match mapGet games roomId with
  | none => (games, false)
  | some _ => (mapUpdate games roomId (fun g => addPlayerState g player), true)

/-- The per-round score entries built by `endRound`/`endGame`:
`{ id, username, score }`. -/
def scoresOf (g : GameState) : List (String × String × Int) :=
  g.players.map (fun p => (p.id, p.username, p.score))

/-- Source `endRound` on the game object (the `roomId` lookup and its null check
live in the callers): record the word, deactivate the round, clear
`currentWord` and `wordOptions`, return `{ word, scores }`.
Note the source does NOT check `isRoundActive` here. -/
def endRound (g : GameState) : (Option String × List (String × String × Int)) × GameState :=
  ((g.currentWord, scoresOf g),
   { g with isRoundActive := false, currentWord := none, wordOptions := [] })

/-- Source `endGame` on the game object: deactivate; winner is the head of the
players sorted by descending score (stable, as JS `sort`). -/
def endGame (g : GameState) : (Option Player × List (String × String × Int)) × GameState :=
  let sorted := g.players.mergeSort (fun a b => b.score ≤ a.score)
  ((sorted.head?, sorted.map (fun p => (p.id, p.username, p.score))),
   { g with isActive := false, isRoundActive := false })

/-- Source `removePlayer` on the game object: splice out the first player with
this id; if the departing player was the current drawer AND a round is
active, run `endRound` (its return value is discarded). -/
def removePlayerState (g : GameState) (playerId : String) : GameState × Option Player :=
  match g.players.find? (fun p => p.id = playerId) with
  | none => (g, none)
  | some p =>
    let g1 := { g with players := g.players.eraseP (fun q => q.id = playerId) }
    if g1.currentDrawer = some playerId ∧ g1.isRoundActive then
      ((endRound g1).2, some p)
    else
      (g1, some p)

/-- Source `removePlayer(roomId, playerId)`. -/
def removePlayer (games : List (String × GameState)) (roomId playerId : String) :
    List (String × GameState) × Option Player :=
  match mapGet games roomId with
  | none => (games, none)
  | some g =>
    match g.players.find? (fun p => p.id = playerId) with
    | none => (games, none)
    | some p =>
      (mapUpdate games roomId (fun g' => (removePlayerState g' playerId).1), some p)

/-- Source `startGame` on the game object: fails if already active, else activate,
reset `currentRound`, `usedWords` and every player's score and flag. -/
def startGame (g : GameState) : Bool × GameState :=
  if g.isActive then (false, g)
  else
    (true,
     { g with isActive := true, currentRound := 0, usedWords := [],
              players := g.players.map (fun p => { p with score := 0, hasGuessed := false }) })

/-- The data returned by a successful `startRound`. -/
structure RoundData where
  drawer : Player
  wordOptions : List String
  round : Int
  totalRounds : Int
deriving DecidableEq, Repr

/-- Source `startRound` on the game object.  `shuffled` stands for the
`Math.random` shuffle inside `generateWordOptions`.  On the overflow path
the source calls `endGame` and returns null.  When `players` is empty (or
`currentRound` would index negatively) the source throws a `TypeError` at
`players[drawerIndex].id`; that path is modelled as returning `none` with
the state mutated up to the throw (`currentRound` already incremented). -/
def startRound (shuffled : List String) (g : GameState) : Option RoundData × GameState :=
  if ¬ g.isActive then (none, g)
  else
    let g1 := { g with currentRound := g.currentRound + 1 }
    if g1.currentRound > g1.rounds then (none, (endGame g1).2)
    else if g1.players.isEmpty ∨ g1.currentRound < 1 then (none, g1)
    else
      let drawerIndex := (g1.currentRound - 1).toNat % g1.players.length
      let drawer := g1.players.getD drawerIndex ⟨"", "", 0, false⟩
      let g2 := { g1 with
        currentDrawer := some drawer.id
        wordOptions := generateWordOptions shuffled
        currentWord := none
        guessedPlayers := []
        players := g1.players.map (fun p => { p with hasGuessed := false })
        isRoundActive := false }
      -- the returned drawer is the aliased player object, whose hasGuessed
      -- flag has been reset by the forEach before the return
      (some { drawer := { drawer with hasGuessed := false }, wordOptions := g2.wordOptions,
              round := g2.currentRound, totalRounds := g2.rounds }, g2)

/-- Source `selectWord` on the game object: requires `word` to be among the
current `wordOptions` (which are NOT cleared on success); on success append
to `usedWords`, activate the round and record the start time (`Date.now()`
is the parameter `now`). -/
def selectWord (now : Rat) (word : String) (g : GameState) : Bool × GameState :=
  if g.wordOptions.contains word then
    (true, { g with currentWord := some word, usedWords := g.usedWords ++ [word],
                    isRoundActive := true, roundStartTime := some now })
  else (false, g)

/-- The object returned by `processGuess`; on the failure paths the source
returns `{ correct: false, points: 0, player: null }` (the remaining fields
are absent, modelled by their defaults). -/
structure GuessResult where
  correct : Bool
  points : Int
  player : Option Player
  allGuessed : Bool
  isFirst : Bool
  guessOrder : Nat
deriving DecidableEq, Repr

/-- The failure result of `processGuess`. -/
def noGuess : GuessResult :=
  { correct := false, points := 0, player := none,
    allGuessed := false, isFirst := false, guessOrder := 0 }

/-- Source `processGuess` on the game object.  `now` is `Date.now()`; a null
`roundStartTime` coerces to `0` in the JS subtraction. -/
def processGuess (now : Rat) (g : GameState) (playerId guess : String) :
    GuessResult × GameState :=
  match g.isRoundActive, g.currentWord with
  | true, some word =>
    match g.players.find? (fun p => p.id = playerId) with
    | none => (noGuess, g)
    | some player =>
      if player.hasGuessed ∨ g.currentDrawer = some playerId then (noGuess, g)
      else if jsTrim (jsToLowerCase guess) = jsToLowerCase word then
        let guessedPlayers' := g.guessedPlayers ++ [playerId]
        let guessOrder := guessedPlayers'.length
        let base : Int :=
          if guessOrder = 1 then 100
          else if guessOrder = 2 then 75
          else if guessOrder = 3 then 50
          else 25
        let timeElapsed : Rat := (now - (g.roundStartTime.getD 0)) / 1000
        let timeBonus : Int := max 0 ⌊(g.drawTime - timeElapsed) / 2⌋
        let points := base + timeBonus
        let players2 := updateFirst (fun p => p.id = playerId)
          (fun p => { p with hasGuessed := true, score := p.score + points }) g.players
        let players3 := updateFirst (fun p => g.currentDrawer = some p.id)
          (fun p => { p with score := p.score + 25 }) players2
        let nonDrawer := players3.filter (fun p => ¬ g.currentDrawer = some p.id)
        let allGuessed := nonDrawer.all (fun p => p.hasGuessed)
        ({ correct := true, points := points,
           player := some { player with hasGuessed := true, score := player.score + points },
           allGuessed := allGuessed, isFirst := guessOrder = 1, guessOrder := guessOrder },
         { g with players := players3, guessedPlayers := guessedPlayers' })
      else (noGuess, g)
  | _, _ => (noGuess, g)

/-- Source `getMaskedWord(word)`. -/
def getMaskedWord (word : String) : String :=
  String.intercalate " " (word.toList.map (fun _ => "_"))

/-- Source `getHint(word, 1)`: the single randomly chosen position is the
parameter `idx`. -/
def getHint (idx : Nat) (word : String) : String :=
  String.intercalate " "
    ((word.toList.enum).map (fun ci => if ci.1 = idx then String.singleton ci.2 else "_"))

/-- Modelled from the spec: `Game.getLeaderboard(roomId)` is invoked by the
chat handler and documented in GAME_MODE_GUIDE.md, but the method is
missing from the Game class under src (calling it throws a TypeError at
runtime).  The spec defines it as the players sorted by score descending. -/
def getLeaderboard (g : GameState) : List (String × String × Int) :=
  (g.players.mergeSort (fun a b => b.score ≤ a.score)).map (fun p => (p.id, p.username, p.score))

/-- Source `deleteGame(roomId)` — defined in the source but never called. -/
def deleteGame (games : List (String × GameState)) (roomId : String) :
    List (String × GameState) :=
  mapDelete games roomId

end Game

/-! ### controllers/socketController.js -/

/-- Where an emit goes: `socket.emit` reaches the sender only;
`socket.to(roomId).emit` reaches every socket joined to the room except the
sender. -/
inductive Target where
  | one (sid : String)
  | roomExcept (roomId : String) (sid : String)
deriving DecidableEq, Repr

/-- The outbound events the modelled handlers emit, with the payload fields
any claim inspects.  `roomJoined` omits the `gameState` snapshot field (no
claim reads it). -/
inductive Event where
  | errorEv (msg : String)
  | roomJoined (roomId roomName : String) (user : User) (users : List User)
      (drawingData : List DrawingEvent)
  | userJoined (user : User)
  | userLeft (user : User)
  | chatMessage (user : User) (message : String) (timestamp : Rat) (isGuess : Bool)
  | correctGuess (player : Option Player) (points : Int) (word : Option String)
  | leaderboardUpdate (leaderboard : List (String × String × Int))
  | canvasCleared
  | gameStarted (rounds : Int) (drawTime : Rat)
  | hintRevealed (hint : String)
  | roundEnded (word : Option String) (scores : List (String × String × Int))
deriving DecidableEq, Repr

/-- A single `emit` call. -/
structure Emission where
  target : Target
  event : Event
deriving DecidableEq, Repr

/-- A `setTimeout` scheduled by a handler (the source never cancels any). -/
inductive Sched where
  | startRoundAfter (roomId : String) (ms : Nat)
  | endRoundAfter (roomId : String) (ms : Nat)
  | endGameAfter (roomId : String) (ms : Nat)
deriving DecidableEq, Repr

/-- The module-level mutable state: the Room registry and the Game
registry. -/
structure ServerState where
  rooms : List (String × RoomState)
  games : List (String × GameState)
deriving DecidableEq, Repr

/-- The socket ids joined to a room's fan-out set (the sockets `join` the
room exactly when they are added to `users`). -/
def memberIds (rooms : List (String × RoomState)) (roomId : String) : List String :=
  match mapGet rooms roomId with
  | none => []
  | some room => room.users.map (fun u => u.id)

/-- Whether socket `sid` receives an emission of event `ev` from the given
emission list, given the room membership in `rooms`. -/
def receivesB (rooms : List (String × RoomState)) (ems : List Emission)
    (sid : String) (ev : Event) : Bool :=
  ems.any (fun e =>
    decide (e.event = ev) &&
    match e.target with
    | .one t => decide (t = sid)
    | .roomExcept rid ex => (memberIds rooms rid).contains sid && decide (¬ sid = ex))

/-- Source `handleJoinRoom(socket, { roomId, username })`.  The random palette
color is the parameter `color`. -/
def handleJoinRoom (st : ServerState) (sid roomId username color : String) :
    ServerState × List Emission :=
  if roomId = "" ∨ username = "" then
    (st, [⟨.one sid, .errorEv "Room ID and username are required"⟩])
  else
    match Room.getRoom st.rooms roomId with
    | none => (st, [⟨.one sid, .errorEv "Room not found"⟩])
    | some room =>
      let user : User := ⟨sid, username, color⟩
      let rooms1 := (Room.addUser st.rooms roomId user).1
      let games1 :=
        match Game.getGame st.games roomId with
        | some _ => st.games
        | none => mapSet st.games roomId (Game.createGame roomId ⟨none, none⟩)
      let games2 := (Game.addPlayer games1 roomId user).1
      let drawingData := Room.getDrawingData rooms1 roomId
      (⟨rooms1, games2⟩,
       [⟨.one sid, .roomJoined room.id room.name user (room.users ++ [user]) drawingData⟩,
        ⟨.roomExcept roomId sid, .userJoined user⟩])

/-- Source `handleChatMessage(socket, { roomId, message })`.  `now` is
`Date.now()`.  On a correct guess the source calls the missing
`Game.getLeaderboard` (see `Game.getLeaderboard`). -/
def handleChatMessage (st : ServerState) (sid roomId message : String) (now : Rat) :
    ServerState × List Emission × List Sched :=
  if roomId = "" ∨ message = "" then (st, [], [])
  else
    match Room.getUser st.rooms roomId sid with
    | none => (st, [], [])
    | some user =>
      let game? := Game.getGame st.games roomId
      let chat : ServerState × List Emission × List Sched :=
        let isGuess :=
          match game? with
          | some g => g.isRoundActive && decide (¬ g.currentDrawer = some sid)
          | none => false
        (st,
         [⟨.roomExcept roomId sid, .chatMessage user message now isGuess⟩,
          ⟨.one sid, .chatMessage user message now isGuess⟩], [])
      match game? with
      | some g =>
        if g.isRoundActive ∧ ¬ g.currentDrawer = some sid then
          let (res, g') := Game.processGuess now g sid message
          if res.correct then
            let st' : ServerState := ⟨st.rooms, mapUpdate st.games roomId (fun _ => g')⟩
            let leaderboard := Game.getLeaderboard g'
            (st',
             [⟨.roomExcept roomId sid, .correctGuess res.player res.points none⟩,
              ⟨.one sid, .correctGuess res.player res.points g'.currentWord⟩,
              ⟨.roomExcept roomId sid, .leaderboardUpdate leaderboard⟩,
              ⟨.one sid, .leaderboardUpdate leaderboard⟩],
             if res.allGuessed then [.endRoundAfter roomId 2000] else [])
          else chat
        else chat
      | none => chat

/-- Source `handleStartGame(socket, { roomId, settings })`. -/
def handleStartGame (st : ServerState) (sid roomId : String) (settings : Settings) :
    ServerState × List Emission × List Sched :=
  if roomId = "" then (st, [], [])
  else
    let (games0, game0) :=
      match Game.getGame st.games roomId with
      | some g => (st.games, g)
      | none =>
        let g := Game.createGame roomId settings
        (mapSet st.games roomId g, g)
    let (started, game1) := Game.startGame game0
    let games1 := mapUpdate games0 roomId (fun _ => game1)
    if ¬ started then (⟨st.rooms, games1⟩, [], [])
    else
      let rooms1 := (Room.clearDrawingData st.rooms roomId).1
      (⟨rooms1, games1⟩,
       [⟨.roomExcept roomId sid, .canvasCleared⟩, ⟨.one sid, .canvasCleared⟩,
        ⟨.roomExcept roomId sid, .gameStarted game1.rounds game1.drawTime⟩,
        ⟨.one sid, .gameStarted game1.rounds game1.drawTime⟩],
       [.startRoundAfter roomId 3000])

/-- Source `handleRequestHint(socket, { roomId })`.  The hint's random character
position is the parameter `idx`. -/
def handleRequestHint (st : ServerState) (sid roomId : String) (idx : Nat) :
    List Emission :=
  if roomId = "" then []
  else
    match Game.getGame st.games roomId with
    | none => []
    | some g =>
      if ¬ g.isRoundActive ∨ g.currentWord = none then []
      else
        let hint := Game.getHint idx (g.currentWord.getD "")
        [⟨.roomExcept roomId sid, .hintRevealed hint⟩] ++
          (if ¬ g.currentDrawer = some sid then [⟨.one sid, .hintRevealed hint⟩] else [])

/-- Source `handleEndRound(socket, { roomId })`. -/
def handleEndRound (st : ServerState) (sid roomId : String) :
    ServerState × List Emission × List Sched :=
  if roomId = "" then (st, [], [])
  else
    match Game.getGame st.games roomId with
    | none => (st, [], [])
    | some g =>
      let (rr, g') := Game.endRound g
      let st' : ServerState := ⟨st.rooms, mapUpdate st.games roomId (fun _ => g')⟩
      (st',
       [⟨.roomExcept roomId sid, .roundEnded rr.1 rr.2⟩, ⟨.one sid, .roundEnded rr.1 rr.2⟩],
       if g'.currentRound ≥ g'.rounds then [.endGameAfter roomId 5000]
       else [.startRoundAfter roomId 5000])

/-- Source `handleDisconnect(socket)`: scan a snapshot of all rooms; for each room
containing the socket, remove the user, remove the player (which may end
the round internally), and emit `user-left` to the others.  No `round-ended`
is emitted, no timer is cancelled, and `Game.deleteGame` is never called. -/
def handleDisconnect (st : ServerState) (sid : String) : ServerState × List Emission :=
  (Room.getAllRooms st.rooms).foldl
    (fun acc room =>
      match Room.getUser acc.1.rooms room.id sid with
      | none => acc
      | some user =>
        let rooms' := (Room.removeUser acc.1.rooms room.id sid).1
        let games' := (Game.removePlayer acc.1.games room.id sid).1
        (⟨rooms', games'⟩, acc.2 ++ [⟨.roomExcept room.id sid, .userLeft user⟩]))
    (st, [])

/-! ### Specification-side accessors -/

/-- The score currently recorded for the player with id `pid`. -/
def scoreOf (g : GameState) (pid : String) : Option Int :=
  (g.players.find? (fun p => p.id = pid)).map (fun p => p.score)

/-- The base points of the claimed scoring rule: 100, 75, 50 or 25 for
guess orders 1, 2, 3 and ≥ 4. -/
def specBase (order : Nat) : Int :=
  if order = 1 then 100 else if order = 2 then 75 else if order = 3 then 50 else 25

/-- The claimed time bonus: `max(0, floor((drawTime − elapsedSeconds) / 2))`. -/
def specTimeBonus (drawTime elapsedSeconds : Rat) : Int :=
  max 0 ⌊(drawTime - elapsedSeconds) / 2⌋

/-- The claimed total award for a correct guess arriving at time `now` in
state `g`: base points for the next guess order plus the time bonus for the
elapsed seconds since `roundStartTime` (a null start time coerces to 0). -/
def specPoints (g : GameState) (now : Rat) : Int :=
  specBase (g.guessedPlayers.length + 1) +
    specTimeBonus g.drawTime ((now - g.roundStartTime.getD 0) / 1000)

/-! ### Concrete states and the in-game step relation (used by the theorems) -/

/-- A game waiting for word selection: `isRoundActive = false` but
`wordOptions` populated. -/
def c3g : GameState :=
  { roomId := "r", rounds := 3, currentRound := 1, drawTime := 60,
    isActive := true, isRoundActive := false, currentDrawer := some "a",
    currentWord := none, wordOptions := ["apple", "banana", "cat"],
    players := [⟨"a", "alice", 0, false⟩], guessedPlayers := [],
    roundStartTime := none, usedWords := [], settings := ⟨none, none⟩ }

/-- A server state holding `c3g`. -/
def c3st : ServerState := ⟨[], [("r", c3g)]⟩

/-- A room with one user and no game yet. -/
def c7st : ServerState :=
  ⟨[("r", ⟨"r", "room", [⟨"u", "uma", "#FF6B6B"⟩], [], 0⟩)], []⟩

/-- A three-member room mid-round: drawer `d`, guessers `g` and `h`. -/
def c9st : ServerState :=
  ⟨[("r", ⟨"r", "room",
      [⟨"d", "dan", "#45B7D1"⟩, ⟨"g", "gina", "#FF6B6B"⟩, ⟨"h", "hugo", "#4ECDC4"⟩], [], 0⟩)],
   [("r",
     { roomId := "r", rounds := 3, currentRound := 1, drawTime := 60,
       isActive := true, isRoundActive := true, currentDrawer := some "d",
       currentWord := some "cat", wordOptions := ["cat", "dog", "sun"],
       players := [⟨"d", "dan", 0, false⟩, ⟨"g", "gina", 0, false⟩, ⟨"h", "hugo", 0, false⟩],
       guessedPlayers := [], roundStartTime := some 0,
       usedWords := ["cat"], settings := ⟨none, none⟩ })]⟩

/-- A room and game in which connection `a` is already present. -/
def c4st : ServerState :=
  ⟨[("r", ⟨"r", "room", [⟨"a", "alice", "#FF6B6B"⟩], [], 0⟩)],
   [("r",
     { roomId := "r", rounds := 3, currentRound := 0, drawTime := 60,
       isActive := false, isRoundActive := false, currentDrawer := none,
       currentWord := none, wordOptions := [], players := [⟨"a", "alice", 0, false⟩],
       guessedPlayers := [], roundStartTime := none, usedWords := [],
       settings := ⟨none, none⟩ })]⟩

/-- A registry with a single one-user room and its game. -/
def c1st : ServerState :=
  ⟨[("r", ⟨"r", "room", [⟨"u", "uma", "#FF6B6B"⟩], [⟨"draw", "u", 5⟩], 0⟩)],
   [("r",
     { roomId := "r", rounds := 3, currentRound := 1, drawTime := 60,
       isActive := true, isRoundActive := true, currentDrawer := some "u",
       currentWord := some "cat", wordOptions := ["cat", "dog", "sun"],
       players := [⟨"u", "uma", 0, false⟩], guessedPlayers := [],
       roundStartTime := some 0, usedWords := ["cat"], settings := ⟨none, none⟩ })]⟩

/-- A two-member room mid-round with drawer `d`. -/
def c6st : ServerState :=
  ⟨[("r", ⟨"r", "room", [⟨"d", "dan", "#45B7D1"⟩, ⟨"g2", "gina", "#FF6B6B"⟩], [], 0⟩)],
   [("r",
     { roomId := "r", rounds := 3, currentRound := 1, drawTime := 60,
       isActive := true, isRoundActive := true, currentDrawer := some "d",
       currentWord := some "cat", wordOptions := ["cat", "dog", "sun"],
       players := [⟨"d", "dan", 0, false⟩, ⟨"g2", "gina", 0, false⟩],
       guessedPlayers := [], roundStartTime := some 0,
       usedWords := ["cat"], settings := ⟨none, none⟩ })]⟩

/-- The repeat guesser of `c2st`. -/
def c2u : User := ⟨"g", "gina", "#FF6B6B"⟩

/-- A room mid-round in which member `g` has already guessed correctly. -/
def c2st : ServerState :=
  ⟨[("r", ⟨"r", "room", [⟨"d", "dan", "#45B7D1"⟩, c2u], [], 0⟩)],
   [("r",
     { roomId := "r", rounds := 3, currentRound := 1, drawTime := 60,
       isActive := true, isRoundActive := true, currentDrawer := some "d",
       currentWord := some "apple", wordOptions := ["apple", "banana", "cat"],
       players := [⟨"d", "dan", 25, false⟩, ⟨"g", "gina", 125, true⟩],
       guessedPlayers := ["g"], roundStartTime := some 0,
       usedWords := ["apple"], settings := ⟨none, none⟩ })]⟩

/-- A room mid-round in which member `g` has NOT yet guessed. -/
def c2wst : ServerState :=
  ⟨[("r", ⟨"r", "room", [⟨"d", "dan", "#45B7D1"⟩, c2u], [], 0⟩)],
   [("r",
     { roomId := "r", rounds := 3, currentRound := 1, drawTime := 60,
       isActive := true, isRoundActive := true, currentDrawer := some "d",
       currentWord := some "apple", wordOptions := ["apple", "banana", "cat"],
       players := [⟨"d", "dan", 0, false⟩, ⟨"g", "gina", 0, false⟩],
       guessedPlayers := [], roundStartTime := some 0,
       usedWords := ["apple"], settings := ⟨none, none⟩ })]⟩

/-- The in-game operations of the Game state machine, with their
nondeterministic inputs (clock readings, shuffles) made explicit. -/
inductive GOp where
  | startRound (shuffled : List String)
  | selectWord (now : Rat) (word : String)
  | processGuess (now : Rat) (playerId guess : String)
  | endRound
  | addPlayer (user : User)
  | removePlayer (playerId : String)
deriving DecidableEq, Repr

/-- The state transformation of a single in-game operation. -/
def gstep : GOp → GameState → GameState
  | .startRound sh, g => (Game.startRound sh g).2
  | .selectWord now w, g => (Game.selectWord now w g).2
  | .processGuess now pid gu, g => (Game.processGuess now g pid gu).2
  | .endRound, g => (Game.endRound g).2
  | .addPlayer u, g => Game.addPlayerState g u
  | .removePlayer pid, g => (Game.removePlayerState g pid).1

/-- Run a sequence of in-game operations. -/
def grun (ops : List GOp) (g : GameState) : GameState :=
  ops.foldl (fun s op => gstep op s) g

/-- A one-player game about to start its only round. -/
def c8wg : GameState :=
  { roomId := "r", rounds := 1, currentRound := 0, drawTime := 60,
    isActive := true, isRoundActive := false, currentDrawer := none,
    currentWord := none, wordOptions := [], players := [⟨"a", "alice", 3, true⟩],
    guessedPlayers := ["x"], roundStartTime := none, usedWords := ["apple"],
    settings := ⟨none, none⟩ }

/-- The round data produced by `startRound` on `c8wg` with the identity
shuffle. -/
def c8rd : Game.RoundData :=
  { drawer := ⟨"a", "alice", 3, false⟩,
    wordOptions := ["banana", "cat", "dog"], round := 1, totalRounds := 1 }

/-- The game state produced by `startRound` on `c8wg` with the identity
shuffle. -/
def c8g2 : GameState :=
  { roomId := "r", rounds := 1, currentRound := 1, drawTime := 60,
    isActive := true, isRoundActive := false, currentDrawer := some "a",
    currentWord := none, wordOptions := ["banana", "cat", "dog"],
    players := [⟨"a", "alice", 3, false⟩], guessedPlayers := [],
    roundStartTime := none, usedWords := ["apple"], settings := ⟨none, none⟩ }

/-! ### Registry helper lemmas -/

lemma mapGet_cons (e : String × α) (es : List (String × α)) (k : String) :
    mapGet (e :: es) k = if e.1 = k then some e.2 else mapGet es k := by
  by_cases he : e.1 = k
  · rw [mapGet, List.find?_cons_of_pos _ (by simpa using he), if_pos he]
    rfl
  · rw [mapGet, List.find?_cons_of_neg _ (by simpa using he), if_neg he, mapGet]

lemma mapGet_mapUpdate_self (m : List (String × α)) (k : String) (f : α → α) :
    mapGet (mapUpdate m k f) k = (mapGet m k).map f := by
  induction m with
  | nil => rfl
  | cons e es ih =>
    show mapGet ((if e.1 = k then (e.1, f e.2) else e) :: mapUpdate es k f) k = _
    by_cases he : e.1 = k
    · rw [if_pos he, mapGet_cons, mapGet_cons, if_pos he, if_pos he]
      rfl
    · rw [if_neg he, mapGet_cons, mapGet_cons, if_neg he, if_neg he]
      exact ih

lemma mapGet_mapSet_of_none (m : List (String × α)) (k : String) (v : α)
    (h : mapGet m k = none) : mapGet (mapSet m k v) k = some v := by
  induction m with
  | nil => rw [mapSet, List.nil_append, mapGet_cons, if_pos rfl]
  | cons e es ih =>
    rw [mapGet_cons] at h
    by_cases he : e.1 = k
    · rw [if_pos he] at h
      exact absurd h (by simp)
    · rw [if_neg he] at h
      show mapGet ((e :: es) ++ [(k, v)]) k = some v
      rw [List.cons_append, mapGet_cons, if_neg he]
      exact ih h

/-! ### updateFirst lemmas -/

lemma updateFirst_congr (p p' : α → Bool) (f : α → α) (l : List α) (h : ∀ a, p a = p' a) :
    updateFirst p f l = updateFirst p' f l := by
  induction l with
  | nil => rfl
  | cons a as ih =>
    unfold updateFirst
    rw [h a, ih]

lemma find?_updateFirst_self (p : α → Bool) (f : α → α) (l : List α)
    (hp : ∀ a, p (f a) = p a) :
    (updateFirst p f l).find? p = (l.find? p).map f := by
  induction l with
  | nil => rfl
  | cons a as ih =>
    by_cases h : p a = true
    · unfold updateFirst
      rw [if_pos h, List.find?_cons_of_pos _ (by rw [hp a]; exact h),
        List.find?_cons_of_pos _ h]
      rfl
    · have h' : p a = false := by simpa using h
      unfold updateFirst
      rw [if_neg h, List.find?_cons_of_neg _ (by simp [hp a, h']),
        List.find?_cons_of_neg _ (by simp [h'])]
      exact ih

lemma find?_updateFirst_disjoint (p q : α → Bool) (f : α → α) (l : List α)
    (hq : ∀ a, q (f a) = q a) (hdisj : ∀ a, p a = true → q a = false) :
    (updateFirst p f l).find? q = l.find? q := by
  induction l with
  | nil => rfl
  | cons a as ih =>
    by_cases h : p a = true
    · have hqa : q a = false := hdisj a h
      unfold updateFirst
      rw [if_pos h, List.find?_cons_of_neg _ (by simp [hq a, hqa]),
        List.find?_cons_of_neg _ (by simp [hqa])]
    · unfold updateFirst
      rw [if_neg h]
      by_cases hqa : q a = true
      · rw [List.find?_cons_of_pos _ hqa, List.find?_cons_of_pos _ hqa]
      · have hqa' : q a = false := by simpa using hqa
        rw [List.find?_cons_of_neg _ (by simp [hqa']), List.find?_cons_of_neg _ (by simp [hqa'])]
        exact ih

/-! ### Claim C10 -/

/-- Claim C10: every call to `processGuess` that does not yield a correct
guess (no active round, no current word, unknown player, drawer guessing,
repeat guesser, or mismatching text) leaves the game state entirely
unchanged. -/
lemma processGuess_cases (now : Rat) (g : GameState) (playerId guess : String) :
    (Game.processGuess now g playerId guess).2 = g ∨
      (Game.processGuess now g playerId guess).1.correct = true := by
  unfold Game.processGuess
  split
  · split
    · left
      rfl
    · split
      · left
        rfl
      · split
        · right
          rfl
        · left
          rfl
  · left
    rfl

theorem C10_noop (now : Rat) (g : GameState) (playerId guess : String)
    (h : (Game.processGuess now g playerId guess).1.correct = false) :
    (Game.processGuess now g playerId guess).2 = g := by
  rcases processGuess_cases now g playerId guess with hc | hc
  · exact hc
  · rw [h] at hc
    exact absurd hc (by simp)

/-- Witness for C10: a wrong guess in a concrete active round leaves the
concrete state untouched. -/
theorem C10_noop_witness :
    (Game.processGuess 5000
        { roomId := "r", rounds := 3, currentRound := 1, drawTime := 60,
          isActive := true, isRoundActive := true, currentDrawer := some "a",
          currentWord := some "apple", wordOptions := ["apple", "banana", "cat"],
          players := [⟨"a", "alice", 0, false⟩, ⟨"b", "bob", 0, false⟩],
          guessedPlayers := [], roundStartTime := some 0,
          usedWords := ["apple"], settings := ⟨none, none⟩ } "b" "pear").1.correct = false ∧
    (Game.processGuess 5000
        { roomId := "r", rounds := 3, currentRound := 1, drawTime := 60,
          isActive := true, isRoundActive := true, currentDrawer := some "a",
          currentWord := some "apple", wordOptions := ["apple", "banana", "cat"],
          players := [⟨"a", "alice", 0, false⟩, ⟨"b", "bob", 0, false⟩],
          guessedPlayers := [], roundStartTime := some 0,
          usedWords := ["apple"], settings := ⟨none, none⟩ } "b" "pear").2 =
      { roomId := "r", rounds := 3, currentRound := 1, drawTime := 60,
        isActive := true, isRoundActive := true, currentDrawer := some "a",
        currentWord := some "apple", wordOptions := ["apple", "banana", "cat"],
        players := [⟨"a", "alice", 0, false⟩, ⟨"b", "bob", 0, false⟩],
        guessedPlayers := [], roundStartTime := some 0,
        usedWords := ["apple"], settings := ⟨none, none⟩ } := by
  refine ⟨by decide, C10_noop 5000 _ "b" "pear" (by decide)⟩

/-! ### Claim C3 -/

/-- Counterexample to claim C3: with `isRoundActive = false` (here: a round
waiting for the drawer's word selection), `endRound` is NOT a no-op — it
clears `wordOptions`, and `handleEndRound` still broadcasts `round-ended`
and schedules a follow-up round. -/
theorem C3_counterexample :
    c3g.isRoundActive = false ∧
    (Game.endRound c3g).2.wordOptions = [] ∧
    ¬ (Game.endRound c3g).2 = c3g ∧
    (handleEndRound c3st "s" "r").2.1 =
      [⟨.roomExcept "r" "s", .roundEnded none [("a", "alice", 0)]⟩,
       ⟨.one "s", .roundEnded none [("a", "alice", 0)]⟩] ∧
    (handleEndRound c3st "s" "r").2.2 = [.startRoundAfter "r" 5000] := by
  decide

/-- Claim C3 (amended): `endRound` does not check `isRoundActive`; whenever
the room has a game, it sets `isRoundActive := false`, clears `currentWord`
and `wordOptions` (scores and `currentRound` are unchanged) and returns a
round result, and `handleEndRound` then broadcasts `round-ended` to the
room and schedules a follow-up — even when `isRoundActive` was already
false.  It is a no-op only when the room has no game. -/
theorem C3_amended (st : ServerState) (sid roomId : String) (g : GameState)
    (hr : ¬ roomId = "") (hg : Game.getGame st.games roomId = some g) :
    (Game.endRound g).2 =
      { g with isRoundActive := false, currentWord := none, wordOptions := [] } ∧
    (Game.endRound g).1 = (g.currentWord, Game.scoresOf g) ∧
    (handleEndRound st sid roomId).2.1 =
      [⟨.roomExcept roomId sid, .roundEnded g.currentWord (Game.scoresOf g)⟩,
       ⟨.one sid, .roundEnded g.currentWord (Game.scoresOf g)⟩] ∧
    ¬ (handleEndRound st sid roomId).2.2 = [] ∧
    (∀ (st' : ServerState) (sid' rid' : String),
       Game.getGame st'.games rid' = none → handleEndRound st' sid' rid' = (st', [], [])) := by
  refine ⟨rfl, rfl, ?_, ?_, ?_⟩
  · simp only [handleEndRound, if_neg hr, hg]
    rfl
  · simp only [handleEndRound, if_neg hr, hg]
    split
    · simp
    · simp
  · intro st' sid' rid' hnone
    by_cases hrid : rid' = ""
    · simp only [handleEndRound, if_pos hrid]
    · simp only [handleEndRound, if_neg hrid, hnone]

/-- Witness for the amended C3 at a concrete state with an inactive round. -/
theorem C3_amended_witness :
    (Game.endRound c3g).2 =
      { c3g with isRoundActive := false, currentWord := none, wordOptions := [] } ∧
    (Game.endRound c3g).1 = (c3g.currentWord, Game.scoresOf c3g) ∧
    (handleEndRound c3st "s" "r").2.1 =
      [⟨.roomExcept "r" "s", .roundEnded c3g.currentWord (Game.scoresOf c3g)⟩,
       ⟨.one "s", .roundEnded c3g.currentWord (Game.scoresOf c3g)⟩] ∧
    ¬ (handleEndRound c3st "s" "r").2.2 = [] ∧
    (∀ (st' : ServerState) (sid' rid' : String),
       Game.getGame st'.games rid' = none → handleEndRound st' sid' rid' = (st', [], [])) :=
  C3_amended c3st "s" "r" c3g (by decide) (by decide)

/-! ### Claim C7 -/

/-- Counterexample to claim C7: `start-game` performs no validation — with
settings `{rounds: 100, drawTime: 200}` the game starts with
`rounds = 100 ∉ [1,10]` and `drawTime = 200 ∉ [30,180]`, and
`game-started{100, 200}` is broadcast. -/
theorem C7_counterexample :
    (Game.getGame (handleStartGame c7st "u" "r" ⟨some 100, some 200⟩).1.games "r").map
        (fun g => (g.isActive, g.rounds, g.drawTime)) = some (true, 100, 200) ∧
    ⟨.one "u", .gameStarted 100 200⟩ ∈ (handleStartGame c7st "u" "r" ⟨some 100, some 200⟩).2.1 ∧
    (handleStartGame c7st "u" "r" ⟨some 100, some 200⟩).2.2 = [.startRoundAfter "r" 3000] := by
  decide

/-- Claim C7 (amended): `handleStartGame` validates nothing.  With no prior
game, any non-zero supplied `rounds` and `drawTime` (however far outside
[1,10] and [30,180]) become the started game's configuration and are
broadcast in `game-started`; only absent (or zero, i.e. falsy) values fall
back to the defaults 3 and 60. -/
theorem C7_amended (st : ServerState) (sid roomId : String) (n : Int) (q : Rat)
    (hr : ¬ roomId = "") (hnog : Game.getGame st.games roomId = none)
    (hn : ¬ n = 0) (hq : ¬ q = 0) :
    (Game.createGame roomId (⟨none, none⟩ : Settings)).rounds = 3 ∧
    (Game.createGame roomId (⟨none, none⟩ : Settings)).drawTime = 60 ∧
    (Game.getGame (handleStartGame st sid roomId ⟨some n, some q⟩).1.games roomId).map
        (fun g => (g.isActive, g.rounds, g.drawTime)) = some (true, n, q) ∧
    ⟨.one sid, .gameStarted n q⟩ ∈ (handleStartGame st sid roomId ⟨some n, some q⟩).2.1 := by
  have hnog' : mapGet st.games roomId = (none : Option GameState) := hnog
  have hget' : mapGet (mapSet st.games roomId (Game.createGame roomId ⟨some n, some q⟩))
      roomId = some (Game.createGame roomId ⟨some n, some q⟩) :=
    mapGet_mapSet_of_none _ _ _ hnog
  refine ⟨rfl, rfl, ?_, ?_⟩
  · simp [handleStartGame, if_neg hr, hnog', Game.startGame, Game.createGame, Game.getGame,
      mapGet_mapUpdate_self, mapGet_mapSet_of_none _ _ _ hnog', if_neg hn, if_neg hq]
  · simp [handleStartGame, if_neg hr, hnog, hnog', Game.startGame, Game.createGame,
      if_neg hn, if_neg hq]

/-- Witness for the amended C7 with out-of-range settings. -/
theorem C7_amended_witness :
    (Game.createGame "r" (⟨none, none⟩ : Settings)).rounds = 3 ∧
    (Game.createGame "r" (⟨none, none⟩ : Settings)).drawTime = 60 ∧
    (Game.getGame (handleStartGame c7st "u" "r" ⟨some 100, some 200⟩).1.games "r").map
        (fun g => (g.isActive, g.rounds, g.drawTime)) = some (true, 100, 200) ∧
    ⟨.one "u", .gameStarted 100 200⟩ ∈ (handleStartGame c7st "u" "r" ⟨some 100, some 200⟩).2.1 :=
  C7_amended c7st "u" "r" 100 200 (by decide) (by decide) (by decide) (by decide)

/-! ### Claim C9 -/

/-- Counterexample to claim C9: when guesser `g` requests a hint,
`socket.to(roomId)` excludes only the requester, so the current drawer `d`
DOES receive `hint-revealed`. -/
theorem C9_counterexample :
    (Game.getGame c9st.games "r").map (fun g => (g.isRoundActive, g.currentDrawer)) =
      some (true, some "d") ∧
    receivesB c9st.rooms (handleRequestHint c9st "g" "r" 0) "d"
      (.hintRevealed (Game.getHint 0 "cat")) = true := by
  decide

/-- Claim C9 (amended): `request-hint` has an effect only while a round is
active with a selected word; `hint-revealed` then goes to every room member
other than the requester, plus the requester themself unless the requester
is the drawer.  Hence a member receives the hint iff they are not the
requester or the requester is not the drawer — in particular the drawer
receives it whenever anyone else requests. -/
theorem C9_amended (st : ServerState) (sid roomId : String) (idx : Nat) (g : GameState)
    (hr : ¬ roomId = "") (hg : Game.getGame st.games roomId = some g) :
    (g.isRoundActive = false ∨ g.currentWord = none →
       handleRequestHint st sid roomId idx = []) ∧
    (∀ w, g.isRoundActive = true → g.currentWord = some w →
       handleRequestHint st sid roomId idx =
         [⟨.roomExcept roomId sid, .hintRevealed (Game.getHint idx w)⟩] ++
           (if ¬ g.currentDrawer = some sid
            then [⟨.one sid, .hintRevealed (Game.getHint idx w)⟩] else []) ∧
       (∀ m, m ∈ memberIds st.rooms roomId →
          (receivesB st.rooms (handleRequestHint st sid roomId idx) m
              (.hintRevealed (Game.getHint idx w)) = true ↔
            (¬ m = sid ∨ ¬ g.currentDrawer = some sid)))) := by
  constructor
  · intro h
    have hcond : ¬ g.isRoundActive = true ∨ g.currentWord = none := by
      rcases h with h | h
      · exact Or.inl (by simp [h])
      · exact Or.inr h
    simp only [handleRequestHint, if_neg hr, hg]
    rw [if_pos hcond]
  · intro w hact hword
    have hcond : ¬ (¬ g.isRoundActive = true ∨ g.currentWord = none) := by
      simp [hact, hword]
    have hems : handleRequestHint st sid roomId idx =
        [⟨.roomExcept roomId sid, .hintRevealed (Game.getHint idx w)⟩] ++
          (if ¬ g.currentDrawer = some sid
           then [⟨.one sid, .hintRevealed (Game.getHint idx w)⟩] else []) := by
      simp only [handleRequestHint, if_neg hr, hg]
      rw [if_neg hcond, hword]
      rfl
    refine ⟨hems, ?_⟩
    intro m hm
    have hm' : (memberIds st.rooms roomId).contains m = true := List.elem_iff.mpr hm
    rw [hems]
    by_cases hd : g.currentDrawer = some sid
    · simp only [hd, not_true_eq_false, if_neg (by simp : ¬ False)]
      by_cases hms : m = sid
      · simp [receivesB, hms, hd]
      · simp [receivesB, hms, hm', hd, hm]
    · simp only [if_pos hd]
      by_cases hms : m = sid
      · simp [receivesB, hms, hd]
      · simp [receivesB, hms, hm', hd, hm]

/-- Witness for the amended C9 at the concrete three-member room. -/
theorem C9_amended_witness :
    (let g9 := (Game.getGame c9st.games "r").getD (Game.createGame "r" ⟨none, none⟩)
     ∀ w, g9.isRoundActive = true → g9.currentWord = some w →
       handleRequestHint c9st "g" "r" 0 =
         [⟨.roomExcept "r" "g", .hintRevealed (Game.getHint 0 w)⟩] ++
           (if ¬ g9.currentDrawer = some "g"
            then [⟨.one "g", .hintRevealed (Game.getHint 0 w)⟩] else []) ∧
       (∀ m, m ∈ memberIds c9st.rooms "r" →
          (receivesB c9st.rooms (handleRequestHint c9st "g" "r" 0) m
              (.hintRevealed (Game.getHint 0 w)) = true ↔
            (¬ m = "g" ∨ ¬ g9.currentDrawer = some "g")))) :=
  (C9_amended c9st "g" "r" 0
    ((Game.getGame c9st.games "r").getD (Game.createGame "r" ⟨none, none⟩))
    (by decide) (by decide)).2

/-! ### Claim C4 -/

/-- Counterexample to claim C4: a second `join-room` from the connection
`a` already present duplicates it in the room's `users` list (its id then
appears twice), while `players` keeps it once. -/
theorem C4_counterexample :
    (Room.getRoom (handleJoinRoom c4st "a" "r" "alice" "#4ECDC4").1.rooms "r").map
        (fun rm => rm.users.countP (fun u => u.id = "a")) = some 2 ∧
    (Game.getGame (handleJoinRoom c4st "a" "r" "alice" "#4ECDC4").1.games "r").map
        (fun g => g.players.countP (fun p => p.id = "a")) = some 1 := by
  decide

/-- Claim C4 (amended): a second `join-room` from a connection already in
the room leaves the game's `players` list unchanged (so the id still
appears exactly once there), but `Room.addUser` pushes unconditionally, so
the room's `users` list gains a duplicate entry: the id appears one more
time than before. -/
theorem C4_amended (st : ServerState) (sid roomId username color : String)
    (room : RoomState) (g : GameState)
    (hr : ¬ roomId = "") (hu : ¬ username = "")
    (hroom : Room.getRoom st.rooms roomId = some room)
    (hgame : Game.getGame st.games roomId = some g)
    (hplayer : ∃ p ∈ g.players, p.id = sid) :
    (Room.getRoom (handleJoinRoom st sid roomId username color).1.rooms roomId).map
        (fun rm => rm.users) = some (room.users ++ [⟨sid, username, color⟩]) ∧
    (Room.getRoom (handleJoinRoom st sid roomId username color).1.rooms roomId).map
        (fun rm => rm.users.countP (fun u => u.id = sid)) =
      some (room.users.countP (fun u => u.id = sid) + 1) ∧
    (Game.getGame (handleJoinRoom st sid roomId username color).1.games roomId).map
        (fun g' => g'.players) = some g.players := by
  have hcond : ¬ (roomId = "" ∨ username = "") := not_or.mpr ⟨hr, hu⟩
  have hroom' : mapGet st.rooms roomId = some room := hroom
  have hgame' : mapGet st.games roomId = some g := hgame
  have haddP : Game.addPlayerState g ⟨sid, username, color⟩ = g := by
    obtain ⟨p, hp, hpid⟩ := hplayer
    unfold Game.addPlayerState
    cases hf : g.players.find? (fun q => q.id = (⟨sid, username, color⟩ : User).id) with
    | none =>
      exact absurd (by simpa using hpid) (by simpa using List.find?_eq_none.mp hf p hp)
    | some _ => rfl
  refine ⟨?_, ?_, ?_⟩
  · simp only [handleJoinRoom, if_neg hcond, Room.getRoom, hroom', Room.addUser,
      mapGet_mapUpdate_self]
    rfl
  · simp only [handleJoinRoom, if_neg hcond, Room.getRoom, hroom', Room.addUser,
      mapGet_mapUpdate_self]
    simp [List.countP_append, List.countP_cons]
  · simp only [handleJoinRoom, if_neg hcond, Room.getRoom, hroom', Game.getGame, hgame',
      Game.addPlayer, mapGet_mapUpdate_self, haddP]
    simp [haddP]

/-- Witness for the amended C4 at the concrete one-user room. -/
theorem C4_amended_witness :
    (Room.getRoom (handleJoinRoom c4st "a" "r" "alice" "#4ECDC4").1.rooms "r").map
        (fun rm => rm.users) =
      some ([⟨"a", "alice", "#FF6B6B"⟩] ++ [⟨"a", "alice", "#4ECDC4"⟩]) ∧
    (Room.getRoom (handleJoinRoom c4st "a" "r" "alice" "#4ECDC4").1.rooms "r").map
        (fun rm => rm.users.countP (fun u => u.id = "a")) =
      some ([(⟨"a", "alice", "#FF6B6B"⟩ : User)].countP (fun u => u.id = "a") + 1) ∧
    (Game.getGame (handleJoinRoom c4st "a" "r" "alice" "#4ECDC4").1.games "r").map
        (fun g' => g'.players) = some [⟨"a", "alice", 0, false⟩] :=
  C4_amended c4st "a" "r" "alice" "#4ECDC4"
    ⟨"r", "room", [⟨"a", "alice", "#FF6B6B"⟩], [], 0⟩
    { roomId := "r", rounds := 3, currentRound := 0, drawTime := 60,
      isActive := false, isRoundActive := false, currentDrawer := none,
      currentWord := none, wordOptions := [], players := [⟨"a", "alice", 0, false⟩],
      guessedPlayers := [], roundStartTime := none, usedWords := [],
      settings := ⟨none, none⟩ }
    (by decide) (by decide) (by decide) (by decide) (by decide)

/-! ### Claim C1 -/

/-- Counterexample to claim C1: when the last user of room `r` disconnects,
the Room record (with its Drawing Log) is deleted from the room registry,
but the game registry STILL contains an entry for `r` — `handleDisconnect`
never calls `Game.deleteGame`. -/
theorem C1_counterexample :
    (handleDisconnect c1st "u").1.rooms = [] ∧
    Room.getRoom (handleDisconnect c1st "u").1.rooms "r" = none ∧
    (Game.getGame (handleDisconnect c1st "u").1.games "r").isSome = true := by
  decide

/-- Claim C1 (amended): when the last user of a room disconnects, the Room
record together with its Drawing Log is deleted from the room registry, but
the Game entry is retained in the game registry (no `deleteGame` call), and
the handler only emits `user-left` — it cancels nothing. -/
theorem C1_amended (rid : String) (room : RoomState) (games : List (String × GameState))
    (g : GameState) (u : User)
    (hid : room.id = rid) (husers : room.users = [u])
    (hg : Game.getGame games rid = some g) :
    Room.getRoom (handleDisconnect ⟨[(rid, room)], games⟩ u.id).1.rooms rid = none ∧
    (handleDisconnect ⟨[(rid, room)], games⟩ u.id).1.rooms = [] ∧
    (Game.getGame (handleDisconnect ⟨[(rid, room)], games⟩ u.id).1.games rid).isSome = true ∧
    (handleDisconnect ⟨[(rid, room)], games⟩ u.id).2 = [⟨.roomExcept rid u.id, .userLeft u⟩] := by
  subst hid
  have hg' : mapGet games room.id = some g := hg
  have hgetu : Room.getUser [(room.id, room)] room.id u.id = some u := by
    unfold Room.getUser
    rw [mapGet_cons, if_pos rfl]
    simp [husers]
  have hremu : Room.removeUser [(room.id, room)] room.id u.id = ([], some u) := by
    unfold Room.removeUser
    rw [mapGet_cons, if_pos rfl]
    simp [husers, mapDelete]
  have hgame2 : (Game.getGame (Game.removePlayer games room.id u.id).1 room.id).isSome = true := by
    unfold Game.removePlayer
    rw [hg']
    cases hf : g.players.find? (fun p => p.id = u.id) with
    | none => simp [hf, Game.getGame, hg']
    | some p => simp [hf, Game.getGame, mapGet_mapUpdate_self, hg']
  have hmain : handleDisconnect ⟨[(room.id, room)], games⟩ u.id =
      (⟨[], (Game.removePlayer games room.id u.id).1⟩,
       [⟨.roomExcept room.id u.id, .userLeft u⟩]) := by
    simp only [handleDisconnect, Room.getAllRooms, List.map, List.foldl, hgetu, hremu,
      List.nil_append]
  rw [hmain]
  exact ⟨rfl, rfl, hgame2, rfl⟩

/-- Witness for the amended C1: the concrete one-user room `c1st`. -/
theorem C1_amended_witness :
    Room.getRoom (handleDisconnect
        ⟨[("r", ⟨"r", "room", [⟨"u", "uma", "#FF6B6B"⟩], [⟨"draw", "u", 5⟩], 0⟩)], c1st.games⟩
        "u").1.rooms "r" = none ∧
    (handleDisconnect
        ⟨[("r", ⟨"r", "room", [⟨"u", "uma", "#FF6B6B"⟩], [⟨"draw", "u", 5⟩], 0⟩)], c1st.games⟩
        "u").1.rooms = [] ∧
    (Game.getGame (handleDisconnect
        ⟨[("r", ⟨"r", "room", [⟨"u", "uma", "#FF6B6B"⟩], [⟨"draw", "u", 5⟩], 0⟩)], c1st.games⟩
        "u").1.games "r").isSome = true ∧
    (handleDisconnect
        ⟨[("r", ⟨"r", "room", [⟨"u", "uma", "#FF6B6B"⟩], [⟨"draw", "u", 5⟩], 0⟩)], c1st.games⟩
        "u").2 = [⟨.roomExcept "r" "u", .userLeft ⟨"u", "uma", "#FF6B6B"⟩⟩] :=
  C1_amended "r" ⟨"r", "room", [⟨"u", "uma", "#FF6B6B"⟩], [⟨"draw", "u", 5⟩], 0⟩
    c1st.games
    ((Game.getGame c1st.games "r").getD (Game.createGame "r" ⟨none, none⟩))
    ⟨"u", "uma", "#FF6B6B"⟩ (by decide) (by decide) (by decide)

/-! ### Claim C6 -/

/-- Counterexample to claim C6: when drawer `d` disconnects mid-round, the
game's round state is reset (`isRoundActive` becomes false), but the ONLY
event emitted is `user-left` — no `round-ended` carrying the word and the
scores reaches the remaining members, and nothing is scheduled. -/
theorem C6_counterexample :
    (handleDisconnect c6st "d").2 =
      [⟨.roomExcept "r" "d", .userLeft ⟨"d", "dan", "#45B7D1"⟩⟩] ∧
    (Game.getGame (handleDisconnect c6st "d").1.games "r").map
        (fun g => (g.isRoundActive, g.currentWord)) = some (false, none) := by
  decide

/-- Claim C6 (amended): when the current drawer disconnects, the handler
emits only `user-left`.  If a round was active (`Drawing`), the game state
is reset internally (`isRoundActive := false`, `currentWord` and
`wordOptions` cleared) but no `round-ended` event is emitted and no
follow-up is scheduled; if no round was active (`WaitingForWord`), the game
state is left untouched apart from removing the player, so the pending
`wordOptions` and drawer remain. -/
theorem C6_amended (rid : String) (room : RoomState) (games : List (String × GameState))
    (g : GameState) (d : String) (du : User)
    (hid : room.id = rid)
    (hfind : room.users.find? (fun v => v.id = d) = some du)
    (hg : Game.getGame games rid = some g)
    (hdrawer : g.currentDrawer = some d)
    (hp : (g.players.find? (fun q => q.id = d)).isSome = true) :
    (handleDisconnect ⟨[(rid, room)], games⟩ d).2 = [⟨.roomExcept rid d, .userLeft du⟩] ∧
    (g.isRoundActive = true →
       Game.getGame (handleDisconnect ⟨[(rid, room)], games⟩ d).1.games rid =
         some { g with players := g.players.eraseP (fun q => q.id = d),
                       isRoundActive := false, currentWord := none, wordOptions := [] }) ∧
    (g.isRoundActive = false →
       Game.getGame (handleDisconnect ⟨[(rid, room)], games⟩ d).1.games rid =
         some { g with players := g.players.eraseP (fun q => q.id = d) }) := by
  subst hid
  have hg' : mapGet games room.id = some g := hg
  obtain ⟨p, hfp⟩ := Option.isSome_iff_exists.mp hp
  have hgetu : Room.getUser [(room.id, room)] room.id d = some du := by
    unfold Room.getUser
    rw [mapGet_cons, if_pos rfl]
    simp [hfind]
  have hmain : handleDisconnect ⟨[(room.id, room)], games⟩ d =
      (⟨(Room.removeUser [(room.id, room)] room.id d).1,
        (Game.removePlayer games room.id d).1⟩,
       [⟨.roomExcept room.id d, .userLeft du⟩]) := by
    simp only [handleDisconnect, Room.getAllRooms, List.map, List.foldl, hgetu,
      List.nil_append]
  have hrp : (Game.removePlayer games room.id d).1 =
      mapUpdate games room.id (fun g' => (Game.removePlayerState g' d).1) := by
    unfold Game.removePlayer
    rw [hg']
    simp [hfp]
  have hgg : Game.getGame (handleDisconnect ⟨[(room.id, room)], games⟩ d).1.games room.id =
      some ((Game.removePlayerState g d).1) := by
    rw [hmain]
    show Game.getGame (Game.removePlayer games room.id d).1 room.id = _
    rw [hrp]
    simp [Game.getGame, mapGet_mapUpdate_self, hg']
  refine ⟨by rw [hmain], ?_, ?_⟩
  · intro hact
    rw [hgg]
    unfold Game.removePlayerState
    rw [hfp]
    simp [hdrawer, hact, Game.endRound]
  · intro hact
    rw [hgg]
    unfold Game.removePlayerState
    rw [hfp]
    simp [hdrawer, hact]

/-- Witness for the amended C6 at the concrete two-member room. -/
theorem C6_amended_witness :
    (let g6 := (Game.getGame c6st.games "r").getD (Game.createGame "r" ⟨none, none⟩)
     (handleDisconnect ⟨[("r", ⟨"r", "room",
         [⟨"d", "dan", "#45B7D1"⟩, ⟨"g2", "gina", "#FF6B6B"⟩], [], 0⟩)], c6st.games⟩ "d").2 =
       [⟨.roomExcept "r" "d", .userLeft ⟨"d", "dan", "#45B7D1"⟩⟩] ∧
     (g6.isRoundActive = true →
        Game.getGame (handleDisconnect ⟨[("r", ⟨"r", "room",
            [⟨"d", "dan", "#45B7D1"⟩, ⟨"g2", "gina", "#FF6B6B"⟩], [], 0⟩)], c6st.games⟩
            "d").1.games "r" =
          some { g6 with players := g6.players.eraseP (fun q => q.id = "d"),
                         isRoundActive := false, currentWord := none, wordOptions := [] }) ∧
     (g6.isRoundActive = false →
        Game.getGame (handleDisconnect ⟨[("r", ⟨"r", "room",
            [⟨"d", "dan", "#45B7D1"⟩, ⟨"g2", "gina", "#FF6B6B"⟩], [], 0⟩)], c6st.games⟩
            "d").1.games "r" =
          some { g6 with players := g6.players.eraseP (fun q => q.id = "d") })) :=
  C6_amended "r"
    ⟨"r", "room", [⟨"d", "dan", "#45B7D1"⟩, ⟨"g2", "gina", "#FF6B6B"⟩], [], 0⟩
    c6st.games
    ((Game.getGame c6st.games "r").getD (Game.createGame "r" ⟨none, none⟩))
    "d" ⟨"d", "dan", "#45B7D1"⟩
    (by decide) (by decide) (by decide) (by decide) (by decide)

/-! ### Claim C5 -/

lemma processGuess_correct_parts (now : Rat) (g : GameState) (playerId guess word : String)
    (player : Player)
    (hact : g.isRoundActive = true) (hword : g.currentWord = some word)
    (hfind : g.players.find? (fun p => p.id = playerId) = some player)
    (hng : player.hasGuessed = false)
    (hnd : ¬ g.currentDrawer = some playerId)
    (hmatch : jsTrim (jsToLowerCase guess) = jsToLowerCase word) :
    (Game.processGuess now g playerId guess).1.correct = true ∧
    (Game.processGuess now g playerId guess).1.points = specPoints g now ∧
    (Game.processGuess now g playerId guess).2.players =
      updateFirst (fun q => g.currentDrawer = some q.id)
        (fun q => { q with score := q.score + 25 })
        (updateFirst (fun q => q.id = playerId)
          (fun q => { q with hasGuessed := true, score := q.score + specPoints g now })
          g.players) ∧
    (Game.processGuess now g playerId guess).2.guessedPlayers =
      g.guessedPlayers ++ [playerId] := by
  unfold Game.processGuess
  simp only [hact, hword, hfind]
  rw [if_neg (by simp [hng, hnd]), if_pos hmatch]
  refine ⟨rfl, ?_, ?_, rfl⟩
  · simp [specPoints, specBase, specTimeBonus]
  · simp [specPoints, specBase, specTimeBonus]

/-- Claim C5: an eligible correct guess awards the guesser
`base + timeBonus` with `base = 100/75/50/25` by guess order and
`timeBonus = max(0, ⌊(drawTime − elapsedSeconds)/2⌋)`, and the drawer's
score increases by exactly 25. -/
theorem C5_points (now : Rat) (g : GameState) (playerId d guess word : String)
    (player drawer : Player)
    (hact : g.isRoundActive = true) (hword : g.currentWord = some word)
    (hfind : g.players.find? (fun p => p.id = playerId) = some player)
    (hng : player.hasGuessed = false)
    (hcd : g.currentDrawer = some d)
    (hne : ¬ d = playerId)
    (hdfind : g.players.find? (fun p => p.id = d) = some drawer)
    (hmatch : jsTrim (jsToLowerCase guess) = jsToLowerCase word) :
    (Game.processGuess now g playerId guess).1.correct = true ∧
    (Game.processGuess now g playerId guess).1.points = specPoints g now ∧
    scoreOf (Game.processGuess now g playerId guess).2 playerId =
      some (player.score + specPoints g now) ∧
    scoreOf (Game.processGuess now g playerId guess).2 d = some (drawer.score + 25) := by
  have hnd : ¬ g.currentDrawer = some playerId := by
    rw [hcd]
    intro h
    exact hne (Option.some.inj h)
  obtain ⟨hc, hpts, hplayers, hgp⟩ :=
    processGuess_correct_parts now g playerId guess word player hact hword hfind hng hnd hmatch
  have hdisj1 : ∀ a : Player, (decide (g.currentDrawer = some a.id)) = true →
      (decide (a.id = playerId)) = false := by
    intro a ha
    rw [hcd] at ha
    simp only [decide_eq_true_eq] at ha
    simp [← Option.some.inj ha, hne]
  have hdisj2 : ∀ a : Player, (decide (a.id = playerId)) = true →
      (decide (a.id = d)) = false := by
    intro a ha
    simp only [decide_eq_true_eq] at ha
    simp [ha]
    intro hcontra
    exact hne hcontra.symm
  have hcongr : ∀ a : Player, (decide (g.currentDrawer = some a.id)) = (decide (a.id = d)) := by
    intro a
    rw [hcd]
    exact decide_eq_decide.mpr ⟨fun h => (Option.some.inj h).symm, fun h => by rw [h]⟩
  refine ⟨hc, hpts, ?_, ?_⟩
  · unfold scoreOf
    rw [hplayers]
    rw [find?_updateFirst_disjoint (fun (q : Player) => decide (g.currentDrawer = some q.id))
      (fun (q : Player) => decide (q.id = playerId))
      (fun (q : Player) => { q with score := q.score + 25 }) _ (fun a => rfl) hdisj1]
    rw [find?_updateFirst_self (fun (q : Player) => decide (q.id = playerId))
      (fun (q : Player) => { q with hasGuessed := true, score := q.score + specPoints g now }) _
      (fun a => rfl)]
    rw [hfind]
    rfl
  · unfold scoreOf
    rw [hplayers]
    rw [updateFirst_congr (fun (q : Player) => decide (g.currentDrawer = some q.id))
      (fun (q : Player) => decide (q.id = d))
      (fun (q : Player) => { q with score := q.score + 25 }) _ hcongr]
    rw [find?_updateFirst_self (fun (q : Player) => decide (q.id = d))
      (fun (q : Player) => { q with score := q.score + 25 }) _ (fun a => rfl)]
    rw [find?_updateFirst_disjoint (fun (q : Player) => decide (q.id = playerId))
      (fun (q : Player) => decide (q.id = d))
      (fun (q : Player) => { q with hasGuessed := true, score := q.score + specPoints g now }) _
      (fun a => rfl) hdisj2]
    rw [hdfind]
    rfl

/-- Witness for C5: Bob guesses "Apple" with the round 10 seconds old. -/
theorem C5_points_witness :
    (let w5g : GameState :=
      { roomId := "r", rounds := 3, currentRound := 1, drawTime := 60,
        isActive := true, isRoundActive := true, currentDrawer := some "a",
        currentWord := some "apple", wordOptions := ["apple", "banana", "cat"],
        players := [⟨"a", "alice", 7, false⟩, ⟨"b", "bob", 3, false⟩],
        guessedPlayers := [], roundStartTime := some 0,
        usedWords := ["apple"], settings := ⟨none, none⟩ }
     (Game.processGuess 10000 w5g "b" " Apple ").1.correct = true ∧
     (Game.processGuess 10000 w5g "b" " Apple ").1.points = specPoints w5g 10000 ∧
     scoreOf (Game.processGuess 10000 w5g "b" " Apple ").2 "b" =
       some (3 + specPoints w5g 10000) ∧
     scoreOf (Game.processGuess 10000 w5g "b" " Apple ").2 "a" = some (7 + 25)) :=
  C5_points 10000 _ "b" "a" " Apple " "apple"
    ⟨"b", "bob", 3, false⟩ ⟨"a", "alice", 7, false⟩
    (by decide) (by decide) (by decide) (by decide) (by decide) (by decide) (by decide)
    (by decide)

/-! ### Claim C2 -/

/-- Counterexample to claim C2: member `g` (not the drawer) has already
guessed this round; when they send the current word "apple" again,
`processGuess` rejects it (`hasGuessed`), so the handler falls through and
broadcasts the word to the whole room as an ordinary `chat-message`. -/
theorem C2_counterexample :
    (Game.getGame c2st.games "r").map
        (fun g => (g.isRoundActive, g.currentWord, g.currentDrawer)) =
      some (true, some "apple", some "d") ∧
    jsTrim (jsToLowerCase "apple") = jsToLowerCase "apple" ∧
    (handleChatMessage c2st "g" "r" "apple" 10000).2.1 =
      [⟨.roomExcept "r" "g", .chatMessage c2u "apple" 10000 true⟩,
       ⟨.one "g", .chatMessage c2u "apple" 10000 true⟩] := by
  decide

/-- Claim C2 (amended): during an active round, a chat message from a game
player other than the drawer whose trimmed lowercased text equals the
current word is never broadcast as `chat-message` — PROVIDED the sender
has not already guessed this round (a repeat sender's correct text falls
through to ordinary chat, see the counterexample). -/
theorem C2_amended (st : ServerState) (sid roomId message : String) (now : Rat)
    (g : GameState) (user : User) (player : Player) (word : String)
    (hm : ¬ message = "") (hr : ¬ roomId = "")
    (huser : Room.getUser st.rooms roomId sid = some user)
    (hg : Game.getGame st.games roomId = some g)
    (hact : g.isRoundActive = true)
    (hword : g.currentWord = some word)
    (hnd : ¬ g.currentDrawer = some sid)
    (hfind : g.players.find? (fun p => p.id = sid) = some player)
    (hng : player.hasGuessed = false)
    (hmatch : jsTrim (jsToLowerCase message) = jsToLowerCase word) :
    ∀ e ∈ (handleChatMessage st sid roomId message now).2.1,
      ∀ u m t b, ¬ e.event = Event.chatMessage u m t b := by
  obtain ⟨hc, hpts, hplayers, hgp⟩ :=
    processGuess_correct_parts now g sid message word player hact hword hfind hng hnd hmatch
  have hcond : ¬ (roomId = "" ∨ message = "") := not_or.mpr ⟨hr, hm⟩
  unfold handleChatMessage
  simp only [if_neg hcond, huser, hg, if_pos (And.intro hact hnd), hc, if_pos]
  intro e he
  simp only [List.mem_cons, List.not_mem_nil, or_false] at he
  rcases he with rfl | rfl | rfl | rfl
  all_goals simp

/-- Witness for the amended C2: a first-time correct guess emits no
`chat-message` at all. -/
theorem C2_amended_witness :
    (Game.getGame c2wst.games "r").map (fun g => (g.isRoundActive, g.currentWord)) =
      some (true, some "apple") ∧
    (∀ e ∈ (handleChatMessage c2wst "g" "r" " Apple " 10000).2.1,
      ∀ u m t b, ¬ e.event = Event.chatMessage u m t b) :=
  ⟨by decide,
   C2_amended c2wst "g" "r" " Apple " 10000
    ((Game.getGame c2wst.games "r").getD (Game.createGame "r" ⟨none, none⟩))
    c2u ⟨"g", "gina", 0, false⟩ "apple"
    (by decide) (by decide) (by decide) (by decide) (by decide) (by decide) (by decide)
    (by decide) (by decide) (by decide)⟩

/-! ### Claim C8 -/

lemma usedWords_processGuess (now : Rat) (g : GameState) (pid gu : String) :
    (Game.processGuess now g pid gu).2.usedWords = g.usedWords := by
  unfold Game.processGuess
  split
  · split
    · rfl
    · split
      · rfl
      · split
        · rfl
        · rfl
  · rfl

lemma usedWords_startRound (sh : List String) (g : GameState) :
    (Game.startRound sh g).2.usedWords = g.usedWords := by
  unfold Game.startRound
  split
  · rfl
  · dsimp only
    split
    · rfl
    · split
      · rfl
      · rfl

lemma usedWords_addPlayerState (g : GameState) (u : User) :
    (Game.addPlayerState g u).usedWords = g.usedWords := by
  unfold Game.addPlayerState
  split
  · rfl
  · rfl

lemma usedWords_removePlayerState (g : GameState) (pid : String) :
    (Game.removePlayerState g pid).1.usedWords = g.usedWords := by
  unfold Game.removePlayerState
  split
  · rfl
  · dsimp only
    split
    · rfl
    · rfl

lemma selectWord_true_usedWords (now : Rat) (w : String) (g : GameState)
    (h : (Game.selectWord now w g).1 = true) :
    (Game.selectWord now w g).2.usedWords = g.usedWords ++ [w] := by
  unfold Game.selectWord at h ⊢
  by_cases hc : g.wordOptions.contains w = true
  · rw [if_pos hc]
  · rw [if_neg hc] at h
    exact absurd h (by simp)

lemma selectWord_false_state (now : Rat) (w : String) (g : GameState)
    (h : (Game.selectWord now w g).1 = false) :
    (Game.selectWord now w g).2 = g := by
  unfold Game.selectWord at h ⊢
  by_cases hc : g.wordOptions.contains w = true
  · rw [if_pos hc] at h
    exact absurd h (by simp)
  · rw [if_neg hc]

lemma usedWords_gstep (op : GOp) (g : GameState) :
    g.usedWords <+: (gstep op g).usedWords := by
  cases op with
  | startRound sh =>
    rw [gstep, usedWords_startRound]
  | selectWord now w =>
    by_cases h : (Game.selectWord now w g).1 = true
    · rw [gstep, selectWord_true_usedWords now w g h]
      exact List.prefix_append _ _
    · rw [gstep, selectWord_false_state now w g (by simpa using h)]
  | processGuess now pid gu =>
    rw [gstep, usedWords_processGuess]
  | endRound =>
    rw [gstep]
    exact List.prefix_refl _
  | addPlayer u =>
    rw [gstep, usedWords_addPlayerState]
  | removePlayer pid =>
    rw [gstep, usedWords_removePlayerState]

lemma usedWords_grun (ops : List GOp) (g : GameState) :
    g.usedWords <+: (grun ops g).usedWords := by
  induction ops generalizing g with
  | nil => exact List.prefix_refl _
  | cons op ops ih => exact (usedWords_gstep op g).trans (ih (gstep op g))

lemma generateWordOptions_not_used (used sh : List String)
    (hperm : sh.Perm (availableWords used)) :
    ∀ w ∈ Game.generateWordOptions sh, used.contains w = false := by
  intro w hw
  have hsh : w ∈ sh := List.take_subset 3 sh hw
  have hav : w ∈ availableWords used := hperm.mem_iff.mp hsh
  unfold availableWords at hav
  have hpred := List.of_mem_filter hav
  simpa using hpred

lemma startRound_some_eq (sh : List String) (g : GameState) (rd : Game.RoundData)
    (g2 : GameState) (h : Game.startRound sh g = (some rd, g2)) :
    g2.usedWords = g.usedWords ∧ g2.wordOptions = Game.generateWordOptions sh := by
  unfold Game.startRound at h
  split at h
  · injection h with h1 h2
    exact absurd h1 (by simp)
  · dsimp only at h
    split at h
    · injection h with h1 h2
      exact absurd h1 (by simp)
    · split at h
      · injection h with h1 h2
        exact absurd h1 (by simp)
      · injection h with h1 h2
        rw [← h2]
        exact ⟨rfl, rfl⟩

/-- Counterexample to claim C8: `wordOptions` are not cleared on selection,
so within one round (no `startRound` between) TWO `selectWord` calls can
succeed, appending two words to `usedWords` — "exactly once per round"
fails. -/
theorem C8_counterexample :
    (let c8g : GameState :=
      { roomId := "r", rounds := 3, currentRound := 1, drawTime := 60,
        isActive := true, isRoundActive := false, currentDrawer := some "a",
        currentWord := none, wordOptions := ["apple", "banana", "cat"],
        players := [⟨"a", "alice", 0, false⟩, ⟨"b", "bob", 0, false⟩],
        guessedPlayers := [], roundStartTime := none, usedWords := [],
        settings := ⟨none, none⟩ }
     (Game.selectWord 0 "apple" c8g).1 = true ∧
     (Game.selectWord 5 "banana" (Game.selectWord 0 "apple" c8g).2).1 = true ∧
     (Game.selectWord 5 "banana" (Game.selectWord 0 "apple" c8g).2).2.usedWords =
       ["apple", "banana"] ∧
     (Game.selectWord 5 "banana" (Game.selectWord 0 "apple" c8g).2).2.currentRound =
       c8g.currentRound) := by
  decide

/-- Claim C8 (amended): within a game, `usedWords` only grows along any
sequence of in-game operations; a word is appended exactly at each
SUCCESSFUL `selectWord` (which the code permits more than once per round);
and every generated offering is disjoint from the `usedWords` at offering
time — hence from every earlier selected word. -/
theorem C8_usedWords :
    (∀ (ops : List GOp) (g : GameState), g.usedWords <+: (grun ops g).usedWords) ∧
    (∀ (now : Rat) (w : String) (g : GameState),
       ((Game.selectWord now w g).1 = true →
          (Game.selectWord now w g).2.usedWords = g.usedWords ++ [w]) ∧
       ((Game.selectWord now w g).1 = false → (Game.selectWord now w g).2 = g)) ∧
    (∀ (used sh : List String), sh.Perm (availableWords used) →
       ∀ w ∈ Game.generateWordOptions sh, used.contains w = false) ∧
    (∀ (sh : List String) (g : GameState) (rd : Game.RoundData) (g2 : GameState),
       Game.startRound sh g = (some rd, g2) → sh.Perm (availableWords g.usedWords) →
       g2.usedWords = g.usedWords ∧ g2.wordOptions = Game.generateWordOptions sh ∧
       ∀ w ∈ g2.wordOptions, g2.usedWords.contains w = false) := by
  refine ⟨usedWords_grun, ?_, generateWordOptions_not_used, ?_⟩
  · intro now w g
    exact ⟨selectWord_true_usedWords now w g, selectWord_false_state now w g⟩
  · intro sh g rd g2 h hperm
    obtain ⟨hu, hw⟩ := startRound_some_eq sh g rd g2 h
    refine ⟨hu, hw, ?_⟩
    intro w hmem
    rw [hu]
    exact generateWordOptions_not_used g.usedWords sh hperm w (hw ▸ hmem)

/-- Witness for the amended C8, instantiating each part at concrete data. -/
theorem C8_usedWords_witness :
    (let c8g : GameState :=
      { roomId := "r", rounds := 3, currentRound := 1, drawTime := 60,
        isActive := true, isRoundActive := false, currentDrawer := some "a",
        currentWord := none, wordOptions := ["apple", "banana", "cat"],
        players := [⟨"a", "alice", 0, false⟩, ⟨"b", "bob", 0, false⟩],
        guessedPlayers := [], roundStartTime := none, usedWords := [],
        settings := ⟨none, none⟩ }
     c8g.usedWords <+: (grun [GOp.selectWord 0 "apple"] c8g).usedWords ∧
     (Game.selectWord 0 "apple" c8g).2.usedWords = c8g.usedWords ++ ["apple"] ∧
     (∀ w ∈ Game.generateWordOptions (availableWords ["apple"]),
        (["apple"] : List String).contains w = false) ∧
     (c8g2.usedWords = c8wg.usedWords ∧
      c8g2.wordOptions = Game.generateWordOptions (availableWords c8wg.usedWords) ∧
      ∀ w ∈ c8g2.wordOptions, c8g2.usedWords.contains w = false)) :=
  ⟨C8_usedWords.1 [GOp.selectWord 0 "apple"] _,
   (C8_usedWords.2.1 0 "apple" _).1 (by decide),
   C8_usedWords.2.2.1 ["apple"] (availableWords ["apple"]) (List.Perm.refl _),
   C8_usedWords.2.2.2 (availableWords c8wg.usedWords) c8wg c8rd c8g2 (by decide)
     (List.Perm.refl _)⟩

end Scribble
